/-
  Verification development for the felix repository: a collection of
  standalone Python scrapers (TripAdvisor GraphQL/HTML, Reddit) that
  collect travel recommendations and dump JSON files.

  Python strings are embedded as `List Char`; machine-level concerns
  (HTTP, files, clocks, randomness) are embedded as explicit inputs:
  each request's outcome is a value of an outcome type, each `sleep`
  call is recorded as a `SleepSpec` value, and `random.uniform(a, b)`
  is recorded as the interval it draws from.
-/
import Mathlib

namespace PyStr

/-- Boolean test that `pat` is a prefix of `s` (used to locate substring
occurrences, as Python `str.split` / `in` do). -/
def startsWith : List Char → List Char → Bool
  | [], _ => true
  | _ :: _, [] => false
  | a :: as, b :: bs => a = b && startsWith as bs

/-- Python `pat in s`: substring containment (for nonempty `pat`;
`[] in s` is `True` in Python and here). -/
def containsSub (pat : List Char) : List Char → Bool
  | [] => startsWith pat []
  | c :: cs => startsWith pat (c :: cs) || containsSub pat cs

/-- Fuel-driven worker for Python `s.split(sep)` with nonempty `sep`:
scans left to right, cutting at each non-overlapping occurrence of `sep`.
`cur` holds the current segment reversed.  The fuel is an embedding
artifact; `pySplitOn` supplies `s.length + 1`, which is always enough
because every step either consumes at least one character of `s` or
terminates. -/
def splitOnAuxF (sep : List Char) : Nat → List Char → List Char → List (List Char)
  | 0, cur, s => [cur.reverse ++ s]
  | fuel + 1, cur, s =>
    if sep ≠ [] ∧ startsWith sep s then
      cur.reverse :: splitOnAuxF sep fuel [] (s.drop sep.length)
    else
      match s with
      | [] => [cur.reverse]
      | c :: cs => splitOnAuxF sep fuel (c :: cur) cs

/-- Python `s.split(sep)` for a nonempty separator (every call site in
the scripts uses a nonempty literal separator). -/
def pySplitOn (sep s : List Char) : List (List Char) :=
  splitOnAuxF sep (s.length + 1) [] s

/-- Python `s.replace(old, new)` for nonempty `old`: replace every
non-overlapping occurrence, left to right. -/
def pyReplace (old new s : List Char) : List Char :=
  List.intercalate new (pySplitOn old s)

/-- Python whitespace (the characters `str.split()` splits on). -/
def isPySpace (c : Char) : Bool :=
  c = ' ' || c = '\t' || c = '\n' || c = '\r' || c = '\x0b' || c = '\x0c'

/-- Worker for Python `s.split()` (no argument): split on whitespace
runs, discarding empty segments.  `cur` holds the current word reversed. -/
def splitWsAux : List Char → List Char → List (List Char)
  | cur, [] => if cur = [] then [] else [cur.reverse]
  | cur, c :: cs =>
    if isPySpace c then
      if cur = [] then splitWsAux [] cs else cur.reverse :: splitWsAux [] cs
    else splitWsAux (c :: cur) cs

/-- Python `s.split()` with no argument. -/
def pySplitWs (s : List Char) : List (List Char) :=
  splitWsAux [] s

/-- Python `word.capitalize()`: first character uppercased, the rest
lowercased (ASCII case mapping, which covers every literal in the
scripts). -/
def pyCapitalize : List Char → List Char
  | [] => []
  | c :: cs => c.toUpper :: cs.map Char.toLower

/-- Worker for Python `s.title()`: an alphabetic character is uppercased
at a word start (previous character not alphabetic) and lowercased
otherwise. -/
def pyTitleAux : Bool → List Char → List Char
  | _, [] => []
  | prevAlpha, c :: cs =>
    if c.isAlpha then
      (if prevAlpha then c.toLower else c.toUpper) :: pyTitleAux true cs
    else c :: pyTitleAux false cs

/-- Python `s.title()` (ASCII case mapping). -/
def pyTitle (s : List Char) : List Char :=
  pyTitleAux false s

/-- Python `s.lower()` (ASCII case mapping; every uppercase character
appearing in the scripts' literals is ASCII). -/
def pyLower (s : List Char) : List Char :=
  s.map Char.toLower

/-- Decimal digits of a natural number, as characters (for f-string
interpolation of timestamps and pagination offsets).  Fuel-driven; the
fuel `n + 1` always suffices since `n / 10 < n` for `n ≥ 10`. -/
def natDigitsAux : Nat → Nat → List Char
  | 0, _ => []
  | fuel + 1, n =>
    if n < 10 then [Char.ofNat (48 + n)]
    else natDigitsAux fuel (n / 10) ++ [Char.ofNat (48 + n % 10)]

/-- Decimal representation of a natural number as a character list. -/
def natDigits (n : Nat) : List Char :=
  natDigitsAux (n + 1) n

end PyStr

/-- Record of one `sleep` call: either a fixed constant duration (in
seconds) or a draw from `random.uniform(lo, hi)`. -/
inductive SleepSpec
  | fixed (seconds : ℚ)
  | uniform (lo hi : ℚ)
deriving DecidableEq, Repr

/-- Outcome of one HTTP request as observed by the calling code: a
response with a status code and an already-decoded body, or an exception
(network error, JSON/HTML parse error, missing key, and so on). -/
inductive HttpOutcome (α : Type)
  | resp (status : Nat) (body : α)
  | exn
deriving DecidableEq

namespace Dedup

/-- First-occurrence deduplication shared (by copy-paste) between
`universal_city_scraper.scrape_restaurants` / `scrape_attractions`
(key = `tripadvisor_url`, admissibility `ok` = URL truthy) and the
unique-posts pass of `filter_most_useful` (key = `url`, no
admissibility check): walk the list, keep an element when its key is
admissible and not yet seen, and remember the key. -/
def dedup_first {α K : Type} [DecidableEq K] (key : α → K) (ok : K → Prop)
    [DecidablePred ok] : List K → List α → List α
  | _, [] => []
  | seen, x :: xs =>
    if ok (key x) ∧ key x ∉ seen then x :: dedup_first key ok (key x :: seen) xs
    else dedup_first key ok seen xs

/-- The seen-key set after running `dedup_first` over a list (used to
chain per-query deduplication passes that share one `seen_urls` set). -/
def dedup_seen {α K : Type} [DecidableEq K] (key : α → K) (ok : K → Prop)
    [DecidablePred ok] : List K → List α → List K
  | seen, [] => seen
  | seen, x :: xs =>
    if ok (key x) ∧ key x ∉ seen then dedup_seen key ok (key x :: seen) xs
    else dedup_seen key ok seen xs

end Dedup

namespace UniversalCityScraper

open PyStr

/-- Embeds `extract_name_from_url` of `universal_city_scraper.py`
(lines 110-124): when `"Reviews-"` occurs in the URL, take the text
between the first `"Reviews-"` and the following `"-"`, replace
underscores and `%20` by spaces, and capitalize each word; otherwise
(or on an exception, which the guarded string operations cannot raise)
return `"Unknown "` followed by the title-cased content type. -/
def extract_name_from_url (url content_type : List Char) : List Char :=
  if containsSub ("Reviews-".toList) url then
    let after := (pySplitOn ("Reviews-".toList) url).getD 1 []
    let name_part := (pySplitOn ("-".toList) after).headI
    let name := pyReplace ("%20".toList) (" ".toList)
      (pyReplace ("_".toList) (" ".toList) name_part)
    List.intercalate (" ".toList) ((pySplitWs name).map pyCapitalize)
  else
    ("Unknown ".toList) ++ pyTitle content_type

end UniversalCityScraper

namespace UniversalCityScraper

open PyStr

/-- A place dictionary as built by `search_places` (lines 192-204).
Only the fields the scripts later inspect are carried: `name` and
`tripadvisor_url`; `payload` abstracts the remaining constant-shaped
fields (`location_id`, `place_type`, `coordinates`, `address`,
`search_query`, `scraped_at`). -/
structure Place where
  name : List Char
  tripadvisor_url : List Char
  payload : Nat
deriving DecidableEq, Repr

/-- One entry of `Typeahead_autocomplete.results` as read by
`search_places`: `text`, `details.url` and `details.placeType`
(`payload` abstracts `locationId` and `coordinates`). -/
structure RawResult where
  text : List Char
  url : List Char
  placeType : List Char
  payload : Nat
deriving DecidableEq, Repr

/-- The `type_matches` dictionary of `search_places` (lines 180-185):
a result passes for `EATERY` when its place type is `EATERY` or its URL
contains `Restaurant_Review`, for `ATTRACTION` when its place type is
`ATTRACTION` or its URL contains `Attraction_Review`; `.get(place_type,
False)` makes every other requested type fail. -/
def type_matches (place_type : List Char) (r : RawResult) : Bool :=
  if place_type = "EATERY".toList then
    r.placeType = "EATERY".toList || containsSub ("Restaurant_Review".toList) r.url
  else if place_type = "ATTRACTION".toList then
    r.placeType = "ATTRACTION".toList || containsSub ("Attraction_Review".toList) r.url
  else false

/-- The per-result extraction of `search_places` (lines 186-206): keep
a result when its type matches, naming it from the URL when `text` is
falsy or the literal `"Unknown"`. -/
def parse_result (place_type : List Char) (r : RawResult) : Option Place :=
  if type_matches place_type r then
    let content_type :=
      if place_type = "EATERY".toList then "restaurant".toList else "attraction".toList
    let name :=
      if r.text = [] ∨ r.text = "Unknown".toList then
        extract_name_from_url r.url content_type
      else r.text
    some ⟨name, r.url, r.payload⟩
  else none

/-- Embeds `search_places` (lines 126-218): on a 200 response, extract
the matching results in order; on any other status the result list stays
empty; the enclosing `try`/`except` turns any exception into logging
plus the empty list. -/
def search_places (place_type : List Char) (out : HttpOutcome (List RawResult)) :
    List Place :=
  match out with
  | .exn => []
  | .resp status body =>
    if status = 200 then body.filterMap (parse_result place_type) else []

/-- The inner deduplication loop of `scrape_restaurants` /
`scrape_attractions` (lines 231-236 / 259-264): append each result
whose `tripadvisor_url` is truthy and unseen, recording the URL. -/
def dedup_step : List Place → List (List Char) → List Place → List Place × List (List Char)
  | acc, seen, [] => (acc, seen)
  | acc, seen, x :: xs =>
    if x.tripadvisor_url ≠ [] ∧ x.tripadvisor_url ∉ seen then
      dedup_step (acc ++ [x]) (x.tripadvisor_url :: seen) xs
    else dedup_step acc seen xs

/-- Embeds the query loop of `scrape_restaurants` (lines 220-246; the
code of `scrape_attractions`, lines 248-274, is identical apart from the
search list and place type).  Each list element is the outcome of one
search query's body: `Except.ok results` deduplicates the results into
the accumulator and then sleeps a fixed 2.5 seconds; `Except.error`
is caught, logged and skipped.  Returns the accumulated unique places
and the recorded sleeps. -/
def scrape_restaurants : List Place → List (List Char) →
    List (Except Unit (List Place)) → List Place × List SleepSpec
  | acc, _, [] => (acc, [])
  | acc, seen, Except.error _ :: os => scrape_restaurants acc seen os
  | acc, seen, Except.ok results :: os =>
    let s := dedup_step acc seen results
    let r := scrape_restaurants s.1 s.2 os
    (r.1, SleepSpec.fixed (5 / 2) :: r.2)

/-- The `city_data` dictionary built by `scrape_all` (lines 276-322),
restricted to the fields derived from the scraped lists (the remaining
fields are constants or timestamps).  There is no fallback list in this
script: the serialized lists are exactly the scraped ones. -/
structure CityData where
  restaurants : List Place
  attractions : List Place
  total_restaurants : Nat
  total_attractions : Nat
  total_places : Nat
  graphql_successful : Bool
deriving DecidableEq, Repr

/-- Embeds `scrape_all` (lines 276-322) as a function of the two
scraped lists. -/
def scrape_all (restaurants attractions : List Place) : CityData where
  restaurants := restaurants
  attractions := attractions
  total_restaurants := restaurants.length
  total_attractions := attractions.length
  total_places := restaurants.length + attractions.length
  graphql_successful := restaurants.length > 0 || attractions.length > 0

/-- Embeds the `--type` flag of `main` (lines 329-330): choices
`all`, `restaurants`, `attractions`, default `all`; argparse rejects
any other value with an error exit. -/
def universal_parse_type : Option (List Char) → Except Unit (List Char)
  | none => .ok ("all".toList)
  | some t =>
    if t = "all".toList ∨ t = "restaurants".toList ∨ t = "attractions".toList then .ok t
    else .error ()

/-- Embeds the output-file choice of `main` (lines 361-366): an explicit
`--output` value is used verbatim; otherwise the name is built from the
cleaned city name and `int(time.time())`. -/
def universal_output_filename (output : Option (List Char)) (city : List Char)
    (timestamp : Nat) : List Char :=
  match output with
  | some f => f
  | none =>
    pyReplace (",".toList) [] (pyReplace (" ".toList) ("_".toList) (pyLower city)) ++
      "_tripadvisor_data_".toList ++ natDigits timestamp ++ ".json".toList

end UniversalCityScraper

namespace TripAdvisorScraper

open PyStr

/-- One entry of the location-search response of `scrape_location_data`
(the `details` dictionary); `payload` abstracts its fields, none of
which the pagination claims inspect. -/
structure LocationData where
  payload : Nat
deriving DecidableEq, Repr

/-- Embeds `scrape_location_data` of `tripadvisor_scraper.py`
(lines 47-112): `raise_for_status` raises on a status of 400 or above,
and the enclosing `try`/`except` turns that — or any parse
exception (`.exn`) — into logging plus the empty list. -/
def scrape_location_data (out : HttpOutcome (List LocationData)) : List LocationData :=
  match out with
  | .exn => []
  | .resp status results => if status < 400 then results else []

/-- A search-result preview (`Preview` TypedDict, lines 23-26). -/
structure Preview where
  url : List Char
  name : List Char
deriving DecidableEq, Repr

/-- What `scrape_search` (lines 176-207) reads off the already-parsed
first results page: the parsed previews, the total-results count if the
regex found one, and the `Next page` link if present. -/
structure FirstPage where
  results : List Preview
  total_results_text : Option Nat
  next_page_url : Option (List Char)
deriving DecidableEq, Repr

/-- Embeds the pagination arithmetic of `scrape_search` (lines 176-207)
and `scrape_search_by_type` (lines 383-421), which is identical in both:
`page_size` is the number of first-page results; when a total count was
extracted, `total_pages = int(math.ceil(total_results / page_size))`
(modelled as the ceiling of the exact rational quotient), otherwise 5;
a truthy `max_pages` smaller than `total_pages` replaces it; one
follow-up URL is generated per page `i = 1 .. total_pages - 1` by
rewriting the offset token `oa{page_size}` of the next-page link to
`oa{page_size * i}`.  Returns the targeted page count and the follow-up
URLs (empty when no next-page link was found, in which case the
function returns only the first page). -/
def scrape_search_pages (fp : FirstPage) (max_pages : Option Nat) :
    Nat × List (List Char) :=
  let page_size := fp.results.length
  let total_pages0 :=
    match fp.total_results_text with
    | some total_results => ⌈((total_results : ℚ) / (page_size : ℚ))⌉₊
    | none => 5
  let total_pages :=
    match max_pages with
    | some m => if m ≠ 0 ∧ total_pages0 > m then m else total_pages0
    | none => total_pages0
  match fp.next_page_url with
  | none => (total_pages, [])
  | some nurl =>
    (total_pages,
      (List.range' 1 (total_pages - 1)).map fun i =>
        pyReplace ("oa".toList ++ natDigits page_size)
          ("oa".toList ++ natDigits (page_size * i)) nurl)

/-- The output file of `main` (line 896): a fixed name with no
timestamp in it. -/
def main_output_filename : List Char := "tripadvisor_all_data.json".toList

end TripAdvisorScraper

namespace FinalIslaVerdeScraper

open PyStr

/-- An attraction dictionary in `final_isla_verde_scraper.py`: only the
`name` field is ever compared; `payload` abstracts the remaining fields
(description, coordinates, rating, and so on for knowledge-base
entries; URL, location id, and so on for scraped entries). -/
structure Place where
  name : List Char
  payload : Nat
deriving DecidableEq, Repr

/-- The names of the hardcoded knowledge base returned by
`get_knowledge_base_attractions` (lines 184-277), in order; the payload
is the entry's position. -/
def get_knowledge_base_attractions : List Place :=
  [⟨"El Yunque National Forest".toList, 0⟩,
   ⟨"Flamenco Beach, Culebra".toList, 1⟩,
   ⟨"Mosquito Bay, Vieques".toList, 2⟩,
   ⟨"Old San Juan".toList, 3⟩,
   ⟨"Casa Bacardí".toList, 4⟩,
   ⟨"Laguna Grande Bioluminescent Bay".toList, 5⟩,
   ⟨"Camuy Caves".toList, 6⟩,
   ⟨"Arecibo Observatory".toList, 7⟩,
   ⟨"Isla Verde Beach".toList, 8⟩,
   ⟨"Piñones Food Kioskos".toList, 9⟩]

/-- Embeds the loop of `scrape_all_attractions` (lines 164-182): each
list element is the outcome of one attraction search; a successful
search extends the accumulated list and is followed by a fixed 2-second
sleep; an exception is caught, logged and skipped.  Returns the
accumulated attractions and the recorded sleeps. -/
def scrape_all_attractions : List (Except Unit (List Place)) → List Place × List SleepSpec
  | [] => ([], [])
  | Except.error _ :: os => scrape_all_attractions os
  | Except.ok results :: os =>
    let r := scrape_all_attractions os
    (results ++ r.1, SleepSpec.fixed 2 :: r.2)

/-- The `data_source` tag given to scraped entries. -/
def src_graphql : List Char := "tripadvisor_graphql".toList

/-- The `data_source` tag given to knowledge-base entries. -/
def src_knowledge : List Char := "knowledge_base".toList

/-- Embeds the merge of `create_final_guide` (lines 290-307): every
scraped attraction is appended tagged `tripadvisor_graphql`; then every
knowledge-base attraction whose lower-cased name is not among the
lower-cased scraped names is appended tagged `knowledge_base`.
`create_restaurant_guide` of `isla_verde_restaurants_scraper.py`
(lines 303-320) is the same code over its restaurant knowledge base. -/
def merge_with_fallback (scraped kb : List Place) : List (Place × List Char) :=
  scraped.map (fun a => (a, src_graphql)) ++
    (kb.filter fun a =>
      decide (pyLower a.name ∉ scraped.map fun b => pyLower b.name)).map
      (fun a => (a, src_knowledge))

/-- The guide dictionary of `create_final_guide` (lines 309-325),
restricted to the fields derived from the scraped list. -/
structure Guide where
  scraped_attractions_count : Nat
  total_attractions : Nat
  attractions : List (Place × List Char)
  graphql_successful : Bool
deriving DecidableEq, Repr

/-- Embeds `create_final_guide` (lines 279-325) as a function of the
scraped attractions list; the knowledge base is the hardcoded literal. -/
def create_final_guide (scraped : List Place) : Guide where
  scraped_attractions_count := scraped.length
  total_attractions := (merge_with_fallback scraped get_knowledge_base_attractions).length
  attractions := merge_with_fallback scraped get_knowledge_base_attractions
  graphql_successful := scraped.length > 0

end FinalIslaVerdeScraper

namespace IslaVerdeSimpleScraper

/-- What one attempt of `test_url_access` observes: a response with a
status code, or an exception from the request. -/
inductive AttemptOutcome
  | status (code : Nat)
  | exn
deriving DecidableEq, Repr

/-- Embeds the retry loop of `test_url_access` in
`isla_verde_simple_scraper.py` (lines 40-65): up to `remaining`
attempts are made, starting at index `attempt`; a 200 returns success,
a 403 sleeps `random.uniform(2, 5)` and retries, another status retries
without sleeping, and an exception sleeps `random.uniform(1, 3)` and
retries.  Returns (success flag, number of requests issued, recorded
sleeps). -/
def test_url_access_loop (outcomes : Nat → AttemptOutcome) :
    Nat → Nat → Bool × Nat × List SleepSpec
  | _, 0 => (false, 0, [])
  | attempt, remaining + 1 =>
    match outcomes attempt with
    | .status code =>
      if code = 200 then (true, 1, [])
      else if code = 403 then
        let r := test_url_access_loop outcomes (attempt + 1) remaining
        (r.1, r.2.1 + 1, SleepSpec.uniform 2 5 :: r.2.2)
      else
        let r := test_url_access_loop outcomes (attempt + 1) remaining
        (r.1, r.2.1 + 1, r.2.2)
    | .exn =>
      let r := test_url_access_loop outcomes (attempt + 1) remaining
      (r.1, r.2.1 + 1, SleepSpec.uniform 1 3 :: r.2.2)

/-- Embeds `test_url_access` with its default `max_retries = 3`. -/
def test_url_access (outcomes : Nat → AttemptOutcome) : Bool × Nat × List SleepSpec :=
  test_url_access_loop outcomes 0 3

end IslaVerdeSimpleScraper

namespace RedditTravelScraper

open PyStr

/-- A post dictionary as built by `_extract_post_data` of
`reddit_travel_scraper.py` (lines 161-187): only `id` and `score` are
inspected by the selection pass; `payload` abstracts the remaining
fields. -/
structure Post where
  id : List Char
  score : Int
  payload : Nat
deriving DecidableEq, Repr

/-- One step of the dictionary comprehension
`{post['id']: post for post in posts}` (line 124): a repeated id
overwrites the stored post in place, a new id is appended (Python
dictionaries preserve insertion order). -/
def upsert (d : List (List Char × Post)) (p : Post) : List (List Char × Post) :=
  if p.id ∈ d.map Prod.fst then
    d.map fun kv => if kv.1 = p.id then (kv.1, p) else kv
  else d ++ [(p.id, p)]

/-- The `unique_posts` values of line 124: last post per id, in order of
first insertion. -/
def unique_posts (posts : List Post) : List Post :=
  (posts.foldl upsert []).map Prod.snd

/-- Embeds the selection pass of `search_travel_posts` (lines 124-127)
over the accumulated `posts` list: deduplicate by id, sort by score
descending (`sorted(..., key=lambda x: x['score'], reverse=True)` is a
stable descending sort), and keep the first `limit` posts. -/
def search_travel_posts (posts : List Post) (limit : Nat) : List Post :=
  ((unique_posts posts).mergeSort fun a b => decide (b.score ≤ a.score)).take limit

/-- Parsed command-line arguments of `main` (lines 286-290). -/
structure RedditArgs where
  location : List Char
  subreddits : Option (List Char)
  limit : Int
  output : List Char
deriving DecidableEq, Repr

/-- Embeds the argparse configuration of `main` (lines 286-290):
`--location` is required (argparse exits with an error when it is
missing), `--limit` has type int and default 25, `--output` defaults to
`output`, `--subreddits` is optional. -/
def reddit_parse_args (location : Option (List Char)) (subreddits : Option (List Char))
    (limit : Option Int) (output : Option (List Char)) : Except Unit RedditArgs :=
  match location with
  | none => .error ()
  | some loc => .ok ⟨loc, subreddits, limit.getD 25, output.getD ("output".toList)⟩

/-- Embeds `re.sub(r'[^a-zA-Z0-9_-]', '_', location.lower())` of
`save_results` (line 242). -/
def sanitize_location (location : List Char) : List Char :=
  (pyLower location).map fun c =>
    if c.isAlphanum || c = '_' || c = '-' then c else '_'

/-- Embeds the output filename of `save_results` (lines 241-243):
`{output_dir}/reddit_travel_{location_safe}_{timestamp}.json`. -/
def reddit_filename (output_dir location : List Char) (timestamp : Nat) : List Char :=
  output_dir ++ "/reddit_travel_".toList ++ sanitize_location location ++
    "_".toList ++ natDigits timestamp ++ ".json".toList

end RedditTravelScraper

namespace FilterMostUseful

/-- A post dictionary as loaded by `filter_most_useful.py`: only `url`
is inspected by the unique-posts pass; `payload` abstracts the rest. -/
structure RPost where
  url : List Char
  payload : Nat
deriving DecidableEq, Repr

/-- Embeds the unique-posts pass of `filter_most_useful`
(lines 84-90): first-occurrence deduplication by `url`, with no
admissibility check on the URL. -/
def unique_posts_pass (posts : List RPost) : List RPost :=
  Dedup.dedup_first (fun p => p.url) (fun _ => True) [] posts

end FilterMostUseful

namespace ScraperRunner

open PyStr

/-- Embeds the write behaviour of `save_results` in `scraper-runner.py`
(lines 101-120): with falsy data nothing is written, otherwise exactly
one file.  The count is the number of files written. -/
def save_results_files (dataNonempty : Bool) : Nat :=
  if dataNonempty then 1 else 0

/-- Embeds the save decision of `main` (lines 249-251): `save_results`
runs only when `--save` was passed and the data is truthy. -/
def main_files_written (save dataNonempty : Bool) : Nat :=
  if save && dataNonempty then save_results_files dataNonempty else 0

/-- Embeds the output filename of `save_results` (lines 107-108), with
the `strftime` timestamp as an abstract character list:
`tripadvisor_{location}_{content_type}_{scraper_type}_{timestamp}.json`. -/
def runner_filename (location content_type scraper_type timestamp : List Char) :
    List Char :=
  "tripadvisor_".toList ++ pyReplace (" ".toList) ("_".toList) (pyLower location) ++
    "_".toList ++ content_type ++ "_".toList ++ scraper_type ++ "_".toList ++
    timestamp ++ ".json".toList

end ScraperRunner

namespace UniversalCityScraper

/-- The URL-based deduplication pass of `scrape_restaurants` /
`scrape_attractions` applied to one list: keep an element when its
`tripadvisor_url` is truthy (non-empty) and not yet seen. -/
def dedup_by_url (l : List Place) : List Place :=
  Dedup.dedup_first (fun p => p.tripadvisor_url) (fun u => u ≠ []) [] l

/-- The concatenation, in query order, of the result lists of the
successful queries of a `scrape_restaurants` run (the stream its shared
`seen_urls` deduplication effectively runs over). -/
def scraped_inputs (os : List (Except Unit (List Place))) : List Place :=
  os.foldr (fun o acc => match o with | .ok rs => rs ++ acc | .error _ => acc) []

end UniversalCityScraper

namespace Dedup

/-- Every element kept by `dedup_first` has an admissible key that was
not in the initial seen set, and comes from the input list. -/
theorem mem_dedup_first {α K : Type} [DecidableEq K] (key : α → K) (ok : K → Prop)
    [DecidablePred ok] (seen : List K) (l : List α) (y : α)
    (hy : y ∈ dedup_first key ok seen l) : ok (key y) ∧ key y ∉ seen ∧ y ∈ l := by
  induction l generalizing seen with
  | nil => simp [dedup_first] at hy
  | cons x xs ih =>
    simp only [dedup_first] at hy
    by_cases h : ok (key x) ∧ key x ∉ seen
    · rw [if_pos h] at hy
      rcases List.mem_cons.mp hy with rfl | hy'
      · exact ⟨h.1, h.2, List.mem_cons_self _ _⟩
      · obtain ⟨h1, h2, h3⟩ := ih _ hy'
        exact ⟨h1, fun hs => h2 (List.mem_cons_of_mem _ hs), List.mem_cons_of_mem _ h3⟩
    · rw [if_neg h] at hy
      obtain ⟨h1, h2, h3⟩ := ih _ hy
      exact ⟨h1, h2, List.mem_cons_of_mem _ h3⟩

/-- `dedup_first` is a sublist of its input (kept elements appear in
encounter order). -/
theorem dedup_first_sublist {α K : Type} [DecidableEq K] (key : α → K) (ok : K → Prop)
    [DecidablePred ok] (seen : List K) (l : List α) :
    (dedup_first key ok seen l).Sublist l := by
  induction l generalizing seen with
  | nil => simp [dedup_first]
  | cons x xs ih =>
    simp only [dedup_first]
    split
    · exact (ih _).cons₂ x
    · exact (ih _).cons x

/-- The keys of a `dedup_first` output are pairwise distinct. -/
theorem nodup_keys_dedup_first {α K : Type} [DecidableEq K] (key : α → K) (ok : K → Prop)
    [DecidablePred ok] (seen : List K) (l : List α) :
    ((dedup_first key ok seen l).map key).Nodup := by
  induction l generalizing seen with
  | nil => simp [dedup_first]
  | cons x xs ih =>
    simp only [dedup_first]
    split
    · simp only [List.map_cons, List.nodup_cons]
      refine ⟨fun hmem => ?_, ih _⟩
      obtain ⟨y, hy, hkey⟩ := List.mem_map.mp hmem
      exact (mem_dedup_first key ok _ _ _ hy).2.1 (hkey ▸ List.mem_cons_self _ _)
    · exact ih _

/-- Each kept element is the first element of the input carrying its
key. -/
theorem first_occurrence_dedup_first {α K : Type} [DecidableEq K] (key : α → K)
    (ok : K → Prop) [DecidablePred ok] (seen : List K) (l : List α) (y : α)
    (hy : y ∈ dedup_first key ok seen l) :
    ∃ p q, l = p ++ y :: q ∧ ∀ z ∈ p, key z ≠ key y := by
  induction l generalizing seen with
  | nil => simp [dedup_first] at hy
  | cons x xs ih =>
    simp only [dedup_first] at hy
    by_cases h : ok (key x) ∧ key x ∉ seen
    · rw [if_pos h] at hy
      rcases List.mem_cons.mp hy with rfl | hy'
      · exact ⟨[], xs, rfl, by simp⟩
      · obtain ⟨p, q, hpq, hne⟩ := ih _ hy'
        have hkey := (mem_dedup_first key ok _ _ _ hy').2.1
        refine ⟨x :: p, q, by rw [hpq, List.cons_append], ?_⟩
        intro z hz
        rcases List.mem_cons.mp hz with rfl | hz'
        · exact fun he => hkey (he ▸ List.mem_cons_self _ _)
        · exact hne z hz'
    · rw [if_neg h] at hy
      obtain ⟨p, q, hpq, hne⟩ := ih _ hy
      have hok := (mem_dedup_first key ok _ _ _ hy).1
      have hseen := (mem_dedup_first key ok _ _ _ hy).2.1
      refine ⟨x :: p, q, by rw [hpq, List.cons_append], ?_⟩
      intro z hz
      rcases List.mem_cons.mp hz with rfl | hz'
      · intro he
        have hxok : ok (key z) := by rw [he]; exact hok
        have hx : key z ∈ seen := by by_contra hns; exact h ⟨hxok, hns⟩
        exact hseen (he ▸ hx)
      · exact hne z hz'

/-- Every admissible key of the input is represented in the output,
unless it was already seen. -/
theorem complete_dedup_first {α K : Type} [DecidableEq K] (key : α → K) (ok : K → Prop)
    [DecidablePred ok] (seen : List K) (l : List α) (x : α)
    (hx : x ∈ l) (hok : ok (key x)) :
    key x ∈ seen ∨ ∃ y ∈ dedup_first key ok seen l, key y = key x := by
  induction l generalizing seen with
  | nil => cases hx
  | cons a as ih =>
    simp only [dedup_first]
    by_cases h : ok (key a) ∧ key a ∉ seen
    · rw [if_pos h]
      rcases List.mem_cons.mp hx with rfl | hx'
      · exact Or.inr ⟨x, List.mem_cons_self _ _, rfl⟩
      · rcases ih (key a :: seen) hx' with hmem | ⟨y, hy, hkey⟩
        · rcases List.mem_cons.mp hmem with he | hs
          · exact Or.inr ⟨a, List.mem_cons_self _ _, he.symm⟩
          · exact Or.inl hs
        · exact Or.inr ⟨y, List.mem_cons_of_mem _ hy, hkey⟩
    · rw [if_neg h]
      rcases List.mem_cons.mp hx with rfl | hx'
      · exact Or.inl (by by_contra hns; exact h ⟨hok, hns⟩)
      · exact ih seen hx'

/-- Splitting a `dedup_first` pass at a list append, threading the seen
set through `dedup_seen`. -/
theorem dedup_first_append {α K : Type} [DecidableEq K] (key : α → K) (ok : K → Prop)
    [DecidablePred ok] (seen : List K) (xs ys : List α) :
    dedup_first key ok seen (xs ++ ys) =
      dedup_first key ok seen xs ++ dedup_first key ok (dedup_seen key ok seen xs) ys := by
  induction xs generalizing seen with
  | nil => simp [dedup_first, dedup_seen]
  | cons x xs ih =>
    simp only [List.cons_append, dedup_first, dedup_seen]
    split
    · simp [ih]
    · exact ih _

end Dedup

namespace UniversalCityScraper

/-- Equation lemma: `scraped_inputs` of the empty outcome list. -/
theorem scraped_inputs_nil : scraped_inputs [] = [] := rfl

/-- Equation lemma: a successful query contributes its results. -/
theorem scraped_inputs_ok (rs : List Place) (os : List (Except Unit (List Place))) :
    scraped_inputs (Except.ok rs :: os) = rs ++ scraped_inputs os := rfl

/-- Equation lemma: a failed query contributes nothing. -/
theorem scraped_inputs_err (e : Unit) (os : List (Except Unit (List Place))) :
    scraped_inputs (Except.error e :: os) = scraped_inputs os := rfl

/-- The inner deduplication loop is `dedup_first` with the URL key,
appended to the accumulator, together with the updated seen set. -/
theorem dedup_step_eq (acc : List Place) (seen : List (List Char)) (xs : List Place) :
    dedup_step acc seen xs =
      (acc ++ Dedup.dedup_first (fun p => p.tripadvisor_url) (fun u => u ≠ []) seen xs,
        Dedup.dedup_seen (fun p => p.tripadvisor_url) (fun u => u ≠ []) seen xs) := by
  induction xs generalizing acc seen with
  | nil => simp [dedup_step, Dedup.dedup_first, Dedup.dedup_seen]
  | cons x xs ih =>
    simp only [dedup_step, Dedup.dedup_first, Dedup.dedup_seen]
    split
    · rw [ih]; simp
    · exact ih _ _

/-- The places accumulated by the query loop of `scrape_restaurants`
are exactly the URL deduplication of the concatenated successful
results. -/
theorem scrape_restaurants_fst (acc : List Place) (seen : List (List Char))
    (os : List (Except Unit (List Place))) :
    (scrape_restaurants acc seen os).1 =
      acc ++ Dedup.dedup_first (fun p => p.tripadvisor_url) (fun u => u ≠ []) seen
        (scraped_inputs os) := by
  induction os generalizing acc seen with
  | nil => simp [scrape_restaurants, scraped_inputs_nil, Dedup.dedup_first]
  | cons o os ih =>
    cases o with
    | error e =>
      rw [scraped_inputs_err]
      exact ih acc seen
    | ok rs =>
      rw [scraped_inputs_ok]
      show (scrape_restaurants (dedup_step acc seen rs).1 (dedup_step acc seen rs).2 os).1 = _
      rw [dedup_step_eq, ih, Dedup.dedup_first_append, List.append_assoc]

/-- The sleeps recorded by the query loop of `scrape_restaurants`: one
fixed 2.5-second sleep per successful query, nothing else. -/
theorem scrape_restaurants_snd (acc : List Place) (seen : List (List Char))
    (os : List (Except Unit (List Place))) :
    (scrape_restaurants acc seen os).2 =
      List.replicate (os.countP fun o => o.isOk) (SleepSpec.fixed (5 / 2)) := by
  induction os generalizing acc seen with
  | nil => simp [scrape_restaurants]
  | cons o os ih =>
    cases o with
    | error e => simpa [scrape_restaurants, Except.isOk, Except.toBool] using ih acc seen
    | ok rs =>
      show (SleepSpec.fixed (5 / 2) :: (scrape_restaurants _ _ os).2) = _
      rw [ih]
      simp [List.replicate_succ, Except.isOk, Except.toBool]

end UniversalCityScraper

namespace TripAdvisorScraper

/-- The ceiling of the exact rational quotient (the model of
`int(math.ceil(total / page_size))`) equals natural ceiling division. -/
theorem ceil_rat_div (T ps : Nat) (h : 0 < ps) :
    ⌈((T : ℚ) / (ps : ℚ))⌉₊ = T ⌈/⌉ ps := by
  have hq : (0 : ℚ) < (ps : ℚ) := by exact_mod_cast h
  apply le_antisymm
  · rw [Nat.ceil_le, div_le_iff₀ hq]
    have h1 : T ≤ ps • (T ⌈/⌉ ps) := le_smul_ceilDiv h
    rw [smul_eq_mul] at h1
    calc (T : ℚ) ≤ ((ps * (T ⌈/⌉ ps) : Nat) : ℚ) := by exact_mod_cast h1
      _ = ((T ⌈/⌉ ps : Nat) : ℚ) * (ps : ℚ) := by push_cast; ring
  · have h2 : (T : ℚ) / (ps : ℚ) ≤ (⌈((T : ℚ) / (ps : ℚ))⌉₊ : ℚ) := Nat.le_ceil _
    have h3 : (T : ℚ) ≤ (⌈((T : ℚ) / (ps : ℚ))⌉₊ : ℚ) * (ps : ℚ) := (div_le_iff₀ hq).mp h2
    have h4 : T ≤ ps * ⌈((T : ℚ) / (ps : ℚ))⌉₊ := by
      have : (T : ℚ) ≤ ((ps * ⌈((T : ℚ) / (ps : ℚ))⌉₊ : Nat) : ℚ) := by push_cast; linarith
      exact_mod_cast this
    exact (ceilDiv_le_iff_le_smul h).mpr (by rw [smul_eq_mul]; exact h4)

end TripAdvisorScraper

namespace RedditTravelScraper

/-- `upsert` with an already-present id leaves the key sequence
unchanged. -/
theorem upsert_keys_of_mem {d : List (List Char × Post)} {p : Post}
    (h : p.id ∈ d.map Prod.fst) : (upsert d p).map Prod.fst = d.map Prod.fst := by
  simp only [upsert, if_pos h, List.map_map]
  apply List.map_congr_left
  intro kv _
  by_cases he : kv.1 = p.id <;> simp [he]

/-- `upsert` with a fresh id appends it to the key sequence. -/
theorem upsert_keys_of_not_mem {d : List (List Char × Post)} {p : Post}
    (h : p.id ∉ d.map Prod.fst) :
    (upsert d p).map Prod.fst = d.map Prod.fst ++ [p.id] := by
  simp only [upsert, if_neg h, List.map_append, List.map_cons, List.map_nil]

/-- `upsert` preserves distinctness of the stored keys. -/
theorem upsert_keys_nodup {d : List (List Char × Post)} {p : Post}
    (h : (d.map Prod.fst).Nodup) : ((upsert d p).map Prod.fst).Nodup := by
  by_cases hm : p.id ∈ d.map Prod.fst
  · rw [upsert_keys_of_mem hm]; exact h
  · rw [upsert_keys_of_not_mem hm]
    simp [List.nodup_append, h, hm, List.disjoint_singleton]

/-- `upsert` preserves the invariant that each stored post's id is its
key. -/
theorem upsert_id_inv {d : List (List Char × Post)} {p : Post}
    (h : ∀ kv ∈ d, kv.2.id = kv.1) : ∀ kv ∈ upsert d p, kv.2.id = kv.1 := by
  intro kv hkv
  by_cases hm : p.id ∈ d.map Prod.fst
  · simp only [upsert, if_pos hm] at hkv
    obtain ⟨kv', hk', heq⟩ := List.mem_map.mp hkv
    by_cases he : kv'.1 = p.id
    · rw [if_pos he] at heq
      rw [← heq]
      exact he.symm
    · rw [if_neg he] at heq
      rw [← heq]
      exact h kv' hk'
  · simp only [upsert, if_neg hm] at hkv
    rcases List.mem_append.mp hkv with h1 | h2
    · exact h kv h1
    · rw [List.mem_singleton.mp h2]

/-- Folding `upsert` over the posts keeps distinct keys and the
id-equals-key invariant. -/
theorem foldl_upsert_inv (posts : List Post) (d : List (List Char × Post))
    (hinv : ∀ kv ∈ d, kv.2.id = kv.1) (hnd : (d.map Prod.fst).Nodup) :
    (∀ kv ∈ posts.foldl upsert d, kv.2.id = kv.1) ∧
      ((posts.foldl upsert d).map Prod.fst).Nodup := by
  induction posts generalizing d with
  | nil => exact ⟨hinv, hnd⟩
  | cons p ps ih =>
    simp only [List.foldl_cons]
    exact ih (upsert d p) (upsert_id_inv hinv) (upsert_keys_nodup hnd)

/-- The ids of `unique_posts` are pairwise distinct. -/
theorem unique_posts_ids_nodup (posts : List Post) :
    ((unique_posts posts).map Post.id).Nodup := by
  obtain ⟨hinv, hnd⟩ := foldl_upsert_inv posts [] (by simp) (by simp)
  have heq : (unique_posts posts).map Post.id = (posts.foldl upsert []).map Prod.fst := by
    unfold unique_posts
    rw [List.map_map]
    exact List.map_congr_left fun kv hkv => hinv kv hkv
  rw [heq]; exact hnd

end RedditTravelScraper

namespace IslaVerdeSimpleScraper

/-- The retry loop issues at most `remaining` requests. -/
theorem test_url_access_loop_le (outcomes : Nat → AttemptOutcome) (attempt remaining : Nat) :
    (test_url_access_loop outcomes attempt remaining).2.1 ≤ remaining := by
  induction remaining generalizing attempt with
  | zero => simp [test_url_access_loop]
  | succ n ih =>
    simp only [test_url_access_loop]
    cases outcomes attempt with
    | status code =>
      by_cases h200 : code = 200
      · simp [h200]
      · by_cases h403 : code = 403
        · simp only [if_neg h200, if_pos h403]
          exact Nat.succ_le_succ (ih (attempt + 1))
        · simp only [if_neg h200, if_neg h403]
          exact Nat.succ_le_succ (ih (attempt + 1))
    | exn => exact Nat.succ_le_succ (ih (attempt + 1))

end IslaVerdeSimpleScraper

/-- C8 counterexample: on the input URL `"Reviews-"` (which contains the
substring `"Reviews-"` with nothing between it and the end) the code of
`extract_name_from_url` returns the empty string, so the claim that the
function returns a non-empty string for every input is false. -/
theorem claim8_counterexample :
    UniversalCityScraper.extract_name_from_url ("Reviews-".toList) ("place".toList) = [] := by
  decide

/-- C8 (amended): `extract_name_from_url` is total (never raises), and
whenever the substring `"Reviews-"` does not occur in the URL it
returns exactly `"Unknown "` followed by the title-cased content type,
which is in particular non-empty; when `"Reviews-"` does occur, the
extracted name may be empty. -/
theorem claim8_unknown_branch (url content_type : List Char)
    (h : PyStr.containsSub ("Reviews-".toList) url = false) :
    UniversalCityScraper.extract_name_from_url url content_type =
      ("Unknown ".toList) ++ PyStr.pyTitle content_type ∧
    UniversalCityScraper.extract_name_from_url url content_type ≠ [] := by
  have heq : UniversalCityScraper.extract_name_from_url url content_type =
      ("Unknown ".toList) ++ PyStr.pyTitle content_type := by
    unfold UniversalCityScraper.extract_name_from_url
    rw [if_neg (by rw [h]; exact Bool.false_ne_true)]
  exact ⟨heq, by rw [heq]; simp⟩

/-- C8 witness: the amended theorem applied to a concrete URL without
`"Reviews-"` and content type `"restaurant"`. -/
theorem claim8_witness :
    UniversalCityScraper.extract_name_from_url ("https://example.com/x".toList)
      ("restaurant".toList) = "Unknown Restaurant".toList :=
  ((claim8_unknown_branch ("https://example.com/x".toList) ("restaurant".toList)
    (by decide)).1).trans (by decide)

/-- C4 counterexample: a `universal_city_scraper` run whose searches all
return nothing serializes `city_data` with empty place lists and
`total_places = 0` — no hardcoded fallback list is merged in step (4),
whereas `final_isla_verde_scraper` in the same situation serializes its
10 knowledge-base entries. -/
theorem claim4_counterexample :
    (UniversalCityScraper.scrape_all [] []).restaurants = [] ∧
    (UniversalCityScraper.scrape_all [] []).attractions = [] ∧
    (UniversalCityScraper.scrape_all [] []).total_places = 0 ∧
    (FinalIslaVerdeScraper.create_final_guide []).total_attractions = 10 := by
  refine ⟨rfl, rfl, rfl, by decide⟩

/-- C4 (amended): the scripts follow the construct-request / extract /
serialize / summarize shape, but only the Isla Verde guide scrapers
merge a hardcoded knowledge-base fallback before serializing;
`universal_city_scraper.scrape_all` serializes exactly its scraped
lists with no fallback, while `create_final_guide` with no scraped
results serializes exactly the knowledge base. -/
theorem claim4_amended :
    (∀ r a, (UniversalCityScraper.scrape_all r a).restaurants = r ∧
      (UniversalCityScraper.scrape_all r a).attractions = a ∧
      (UniversalCityScraper.scrape_all r a).total_places = r.length + a.length) ∧
    (FinalIslaVerdeScraper.create_final_guide []).attractions.map Prod.fst =
      FinalIslaVerdeScraper.get_knowledge_base_attractions := by
  exact ⟨fun r a => ⟨rfl, rfl, rfl⟩, by decide⟩

/-- C5 counterexample: a `scraper-runner.py` run without `--save`
writes zero JSON files, not exactly one; a `universal_city_scraper` run
with an explicit `--output custom.json` writes a file whose name
contains no timestamp; and `tripadvisor_scraper.py`'s `main` writes the
fixed name `tripadvisor_all_data.json`, which contains no digit at
all. -/
theorem claim5_counterexample :
    ScraperRunner.main_files_written false true = 0 ∧
    UniversalCityScraper.universal_output_filename (some ("custom.json".toList))
      ("Austin".toList) 1723500000 = "custom.json".toList ∧
    (TripAdvisorScraper.main_output_filename.all fun c => !c.isDigit) = true := by
  exact ⟨rfl, rfl, by decide⟩

/-- C5 (amended): when a script reaches its save step with data it
writes exactly one JSON file, and the default file names embed the run
timestamp; but `scraper-runner.py` writes no file unless `--save` is
passed, an explicit `--output` name is used verbatim, and
`tripadvisor_scraper.py` uses a fixed name without a timestamp. -/
theorem claim5_amended :
    (∀ city ts, ∃ p q, UniversalCityScraper.universal_output_filename none city ts =
      p ++ (PyStr.natDigits ts ++ q)) ∧
    (∀ dir loc ts, ∃ p q, RedditTravelScraper.reddit_filename dir loc ts =
      p ++ (PyStr.natDigits ts ++ q)) ∧
    ScraperRunner.main_files_written true true = 1 ∧
    (∀ l c s t, ∃ p q, ScraperRunner.runner_filename l c s t = p ++ (t ++ q)) := by
  refine ⟨?_, ?_, rfl, ?_⟩
  · intro city ts
    refine ⟨PyStr.pyReplace (",".toList) [] (PyStr.pyReplace (" ".toList) ("_".toList)
      (PyStr.pyLower city)) ++ "_tripadvisor_data_".toList, ".json".toList, ?_⟩
    simp [UniversalCityScraper.universal_output_filename, List.append_assoc]
  · intro dir loc ts
    refine ⟨dir ++ "/reddit_travel_".toList ++ RedditTravelScraper.sanitize_location loc ++
      "_".toList, ".json".toList, ?_⟩
    simp [RedditTravelScraper.reddit_filename, List.append_assoc]
  · intro l c s t
    refine ⟨"tripadvisor_".toList ++ PyStr.pyReplace (" ".toList) ("_".toList)
      (PyStr.pyLower l) ++ "_".toList ++ c ++ "_".toList ++ s ++ "_".toList,
      ".json".toList, ?_⟩
    simp [ScraperRunner.runner_filename, List.append_assoc]

/-- C6 counterexample: `test_url_access` in
`isla_verde_simple_scraper.py`, fed a 403 on the first attempt and a
200 on the second, issues two requests for the same URL — it retries a
failed request — and the delay between them is drawn from
`random.uniform(2, 5)`, not a fixed constant.  This refutes the claim
that no script retries or varies its delay. -/
theorem claim6_counterexample :
    IslaVerdeSimpleScraper.test_url_access
      (fun i => if i = 0 then .status 403 else .status 200) =
      (true, 2, [SleepSpec.uniform 2 5]) := by
  decide

/-- C6 (amended): the loop-level delays are blanket fixed constants
(2.5 seconds per successful query in the universal scraper, 2 seconds
per successful search in the final Isla Verde scraper) and those loops
never retry, except `test_url_access` of
`isla_verde_simple_scraper.py`, which retries the same URL up to 3
times with randomly drawn delays (`uniform(2, 5)` after a 403,
`uniform(1, 3)` after an exception). -/
theorem claim6_amended :
    (∀ f, (IslaVerdeSimpleScraper.test_url_access f).2.1 ≤ 3) ∧
    IslaVerdeSimpleScraper.test_url_access (fun _ => .status 403) =
      (false, 3, [SleepSpec.uniform 2 5, SleepSpec.uniform 2 5, SleepSpec.uniform 2 5]) ∧
    (∀ acc seen os, (UniversalCityScraper.scrape_restaurants acc seen os).2 =
      List.replicate (os.countP fun o => o.isOk) (SleepSpec.fixed (5 / 2))) ∧
    (∀ os, (FinalIslaVerdeScraper.scrape_all_attractions os).2 =
      List.replicate (os.countP fun o => o.isOk) (SleepSpec.fixed 2)) := by
  refine ⟨fun f => IslaVerdeSimpleScraper.test_url_access_loop_le f 0 3, by decide,
    UniversalCityScraper.scrape_restaurants_snd, ?_⟩
  intro os
  induction os with
  | nil => rfl
  | cons o os ih =>
    cases o with
    | error e =>
      simpa [FinalIslaVerdeScraper.scrape_all_attractions, Except.isOk] using ih
    | ok rs =>
      show SleepSpec.fixed 2 :: (FinalIslaVerdeScraper.scrape_all_attractions os).2 = _
      rw [ih]
      simp [List.countP_cons, Except.isOk, Except.toBool, List.replicate_succ]

/-- C7: each script parses its own flags; the Reddit travel scraper
errors out without `--location` and defaults `--limit` to 25, and the
universal city scraper's `--type` defaults to `all` and accepts exactly
the choices `all`, `restaurants`, `attractions`. -/
theorem claim7_cli_flags :
    (∀ s l o, RedditTravelScraper.reddit_parse_args none s l o = .error ()) ∧
    (∀ loc s o, RedditTravelScraper.reddit_parse_args (some loc) s none o =
      .ok ⟨loc, s, 25, o.getD ("output".toList)⟩) ∧
    UniversalCityScraper.universal_parse_type none = .ok ("all".toList) ∧
    (∀ t, t = "all".toList ∨ t = "restaurants".toList ∨ t = "attractions".toList →
      UniversalCityScraper.universal_parse_type (some t) = .ok t) ∧
    (∀ t, ¬(t = "all".toList ∨ t = "restaurants".toList ∨ t = "attractions".toList) →
      UniversalCityScraper.universal_parse_type (some t) = .error ()) := by
  refine ⟨fun s l o => rfl, fun loc s o => rfl, rfl, ?_, ?_⟩
  · intro t ht
    simp only [UniversalCityScraper.universal_parse_type]
    rw [if_pos ht]
  · intro t ht
    simp only [UniversalCityScraper.universal_parse_type]
    rw [if_neg ht]

/-- C7 witness: the CLI theorem applied at concrete argument vectors. -/
theorem claim7_witness :
    RedditTravelScraper.reddit_parse_args none none none none = .error () ∧
    RedditTravelScraper.reddit_parse_args (some ("Austin, TX".toList)) none none none =
      .ok ⟨"Austin, TX".toList, none, 25, "output".toList⟩ ∧
    UniversalCityScraper.universal_parse_type (some ("restaurants".toList)) =
      .ok ("restaurants".toList) ∧
    UniversalCityScraper.universal_parse_type (some ("hotels".toList)) = .error () :=
  ⟨claim7_cli_flags.1 none none none, claim7_cli_flags.2.1 _ none none,
    claim7_cli_flags.2.2.2.1 _ (by decide), claim7_cli_flags.2.2.2.2 _ (by decide)⟩

namespace FinalIslaVerdeScraper

/-- When every attraction search raises, the accumulated scraped list
is empty. -/
theorem scrape_all_attractions_all_err (os : List (Except Unit (List Place)))
    (h : ∀ o ∈ os, o = Except.error ()) : (scrape_all_attractions os).1 = [] := by
  induction os with
  | nil => rfl
  | cons o os ih =>
    have ho := h o (List.mem_cons_self _ _)
    subst ho
    exact ih fun o' ho' => h o' (List.mem_cons_of_mem _ ho')

end FinalIslaVerdeScraper

namespace UniversalCityScraper

/-- When every query raises, no results are contributed. -/
theorem scraped_inputs_all_err (os : List (Except Unit (List Place)))
    (h : ∀ o ∈ os, o = Except.error ()) : scraped_inputs os = [] := by
  induction os with
  | nil => rfl
  | cons o os ih =>
    have ho := h o (List.mem_cons_self _ _)
    subst ho
    exact ih fun o' ho' => h o' (List.mem_cons_of_mem _ ho')

end UniversalCityScraper

/-- C1: in the knowledge-base merge of `create_final_guide` (and the
identical `create_restaurant_guide`), every scraped entry appears in
the merged list (tagged `tripadvisor_graphql`); a knowledge-base entry
appears (tagged `knowledge_base`) if and only if its lower-cased name
equals no scraped entry's lower-cased name; and this lower-cased name
comparison is the only merging performed here: the merged list is
exactly the scraped list followed by the surviving knowledge-base
entries, with no deduplication among the scraped entries themselves.
The last conjunct ties the merge to `create_final_guide` over its
hardcoded knowledge base. -/
theorem claim1_kb_merge (scraped kb : List FinalIslaVerdeScraper.Place) :
    (∀ a ∈ scraped, (a, FinalIslaVerdeScraper.src_graphql) ∈
      FinalIslaVerdeScraper.merge_with_fallback scraped kb) ∧
    (∀ a ∈ kb, ((a, FinalIslaVerdeScraper.src_knowledge) ∈
        FinalIslaVerdeScraper.merge_with_fallback scraped kb ↔
      ∀ b ∈ scraped, PyStr.pyLower a.name ≠ PyStr.pyLower b.name)) ∧
    ((FinalIslaVerdeScraper.merge_with_fallback scraped kb).map Prod.fst =
      scraped ++ kb.filter fun a =>
        decide (∀ b ∈ scraped, PyStr.pyLower a.name ≠ PyStr.pyLower b.name)) ∧
    (FinalIslaVerdeScraper.create_final_guide scraped).attractions =
      FinalIslaVerdeScraper.merge_with_fallback scraped
        FinalIslaVerdeScraper.get_knowledge_base_attractions := by
  refine ⟨?_, ?_, ?_, rfl⟩
  · intro a ha
    exact List.mem_append_left _ (List.mem_map_of_mem _ ha)
  · intro a ha
    constructor
    · intro hmem
      rcases List.mem_append.mp hmem with hl | hr
      · exfalso
        obtain ⟨b, _, heq⟩ := List.mem_map.mp hl
        have hsrc : FinalIslaVerdeScraper.src_graphql = FinalIslaVerdeScraper.src_knowledge :=
          congrArg Prod.snd heq
        exact absurd hsrc (by decide)
      · obtain ⟨x, hx, heq⟩ := List.mem_map.mp hr
        have hxa : x = a := congrArg Prod.fst heq
        subst hxa
        have hfx := List.of_mem_filter hx
        simp only [] at hfx
        have hnotin := of_decide_eq_true hfx
        intro b hb heqname
        exact hnotin (by rw [heqname]; exact List.mem_map_of_mem _ hb)
    · intro hall
      apply List.mem_append_right
      apply List.mem_map_of_mem
      apply List.mem_filter.mpr
      have hnot : PyStr.pyLower a.name ∉ scraped.map fun b => PyStr.pyLower b.name := by
        intro hmem
        obtain ⟨b, hb, heq⟩ := List.mem_map.mp hmem
        exact hall b hb heq.symm
      exact ⟨ha, decide_eq_true hnot⟩
  · have hfil : (kb.filter fun a =>
        decide (PyStr.pyLower a.name ∉ scraped.map fun b => PyStr.pyLower b.name)) =
        kb.filter fun a =>
        decide (∀ b ∈ scraped, PyStr.pyLower a.name ≠ PyStr.pyLower b.name) := by
      apply List.filter_congr
      intro x _
      apply decide_eq_decide.mpr
      constructor
      · intro hnot b hb heq
        exact hnot (by rw [heq]; exact List.mem_map_of_mem _ hb)
      · intro hall hmem
        obtain ⟨b, hb, heq⟩ := List.mem_map.mp hmem
        exact hall b hb heq.symm
    simp only [FinalIslaVerdeScraper.merge_with_fallback, List.map_append, List.map_map]
    rw [← hfil]
    simp [Function.comp_def]

/-- C1 witness: the merge theorem applied with one scraped attraction
named `Old San Juan` and the hardcoded knowledge base: the scraped
entry is in the merge, the knowledge-base entry of the same name is
not, and a knowledge-base entry with a different name is. -/
theorem claim1_witness :
    ((⟨"Old San Juan".toList, 100⟩ : FinalIslaVerdeScraper.Place),
      FinalIslaVerdeScraper.src_graphql) ∈
      FinalIslaVerdeScraper.merge_with_fallback
        [⟨"Old San Juan".toList, 100⟩] FinalIslaVerdeScraper.get_knowledge_base_attractions ∧
    ((⟨"Old San Juan".toList, 3⟩ : FinalIslaVerdeScraper.Place),
      FinalIslaVerdeScraper.src_knowledge) ∉
      FinalIslaVerdeScraper.merge_with_fallback
        [⟨"Old San Juan".toList, 100⟩] FinalIslaVerdeScraper.get_knowledge_base_attractions ∧
    ((⟨"Camuy Caves".toList, 6⟩ : FinalIslaVerdeScraper.Place),
      FinalIslaVerdeScraper.src_knowledge) ∈
      FinalIslaVerdeScraper.merge_with_fallback
        [⟨"Old San Juan".toList, 100⟩] FinalIslaVerdeScraper.get_knowledge_base_attractions := by
  refine ⟨?_, ?_, ?_⟩
  · exact (claim1_kb_merge _ _).1 _ (by decide)
  · intro hmem
    have h := ((claim1_kb_merge _ _).2.1 _ (by decide)).mp hmem
    exact h (⟨"Old San Juan".toList, 100⟩ : FinalIslaVerdeScraper.Place) (by decide) (by decide)
  · exact ((claim1_kb_merge _ _).2.1 _ (by decide)).mpr (by decide)

/-- C2: exceptions in the scraping operations are caught at request or
item granularity and produce the empty default: `scrape_location_data`
returns `[]` on an exception or an error status (`raise_for_status`);
`search_places` returns `[]` on an exception or a non-200 status; when
every query of `scrape_restaurants` fails the run still produces the
empty list; and when every search of the final Isla Verde scraper
fails, `create_final_guide` yields the fallback-only guide consisting
exactly of the knowledge base. -/
theorem claim2_error_handling :
    TripAdvisorScraper.scrape_location_data HttpOutcome.exn = [] ∧
    (∀ status rs, 400 ≤ status →
      TripAdvisorScraper.scrape_location_data (HttpOutcome.resp status rs) = []) ∧
    (∀ pt, UniversalCityScraper.search_places pt HttpOutcome.exn = []) ∧
    (∀ pt status body, status ≠ 200 →
      UniversalCityScraper.search_places pt (HttpOutcome.resp status body) = []) ∧
    (∀ os, (∀ o ∈ os, o = Except.error ()) →
      (UniversalCityScraper.scrape_restaurants [] [] os).1 = []) ∧
    (∀ os, (∀ o ∈ os, o = Except.error ()) →
      (FinalIslaVerdeScraper.scrape_all_attractions os).1 = [] ∧
      ((FinalIslaVerdeScraper.create_final_guide
          (FinalIslaVerdeScraper.scrape_all_attractions os).1).attractions.map Prod.fst =
        FinalIslaVerdeScraper.get_knowledge_base_attractions)) := by
  refine ⟨rfl, ?_, fun pt => rfl, ?_, ?_, ?_⟩
  · intro status rs h
    simp only [TripAdvisorScraper.scrape_location_data]
    rw [if_neg (by omega)]
  · intro pt status body h
    simp only [UniversalCityScraper.search_places]
    rw [if_neg h]
  · intro os h
    rw [UniversalCityScraper.scrape_restaurants_fst,
      UniversalCityScraper.scraped_inputs_all_err os h]
    rfl
  · intro os h
    have h1 := FinalIslaVerdeScraper.scrape_all_attractions_all_err os h
    refine ⟨h1, ?_⟩
    rw [h1]
    decide

/-- C2 witness: the error-handling theorem applied to a run whose two
queries both raise, and to a 403-status response. -/
theorem claim2_witness :
    (UniversalCityScraper.scrape_restaurants [] []
      [Except.error (), Except.error ()]).1 = [] ∧
    ((FinalIslaVerdeScraper.create_final_guide
        (FinalIslaVerdeScraper.scrape_all_attractions
          [Except.error (), Except.error ()]).1).attractions.map Prod.fst =
      FinalIslaVerdeScraper.get_knowledge_base_attractions) ∧
    TripAdvisorScraper.scrape_location_data (HttpOutcome.resp 403 []) = [] := by
  have hall : ∀ o ∈ ([Except.error (), Except.error ()] :
      List (Except Unit (List UniversalCityScraper.Place))), o = Except.error () := by
    intro o ho
    rcases List.mem_cons.mp ho with h | ho'
    · exact h
    · rcases List.mem_cons.mp ho' with h | h
      · exact h
      · cases h
  have hall2 : ∀ o ∈ ([Except.error (), Except.error ()] :
      List (Except Unit (List FinalIslaVerdeScraper.Place))), o = Except.error () := by
    intro o ho
    rcases List.mem_cons.mp ho with h | ho'
    · exact h
    · rcases List.mem_cons.mp ho' with h | h
      · exact h
      · cases h
  exact ⟨claim2_error_handling.2.2.2.2.1 _ hall,
    (claim2_error_handling.2.2.2.2.2 _ hall2).2,
    claim2_error_handling.2.1 403 [] (by omega)⟩

/-- C3 counterexample: with a first page of two parsed results and an
extracted total of 5, three pages are targeted (two after the first);
but with no next-page link on the first page, `scrape_search` /
`scrape_search_by_type` return only the first page and generate zero
follow-up URLs (lines 197-199 and 411-413), while the claim's stated
conditions (non-empty first page, extracted total) hold — so the claim
that exactly one follow-up page URL is generated for each targeted
page after the first is false at this input. -/
theorem claim3_counterexample :
    (TripAdvisorScraper.scrape_search_pages
      ⟨[⟨"u1".toList, "A".toList⟩, ⟨"u2".toList, "B".toList⟩], some 5, none⟩ none).1 =
      5 ⌈/⌉ 2 ∧
    5 ⌈/⌉ 2 = 3 ∧
    (TripAdvisorScraper.scrape_search_pages
      ⟨[⟨"u1".toList, "A".toList⟩, ⟨"u2".toList, "B".toList⟩], some 5, none⟩ none).2 =
      [] := by
  refine ⟨?_, ?_, rfl⟩
  · exact TripAdvisorScraper.ceil_rat_div 5 2 (by norm_num)
  · rfl

/-- C3 (amended): in `scrape_search` / `scrape_search_by_type`, when
the first page parsed to a non-empty result list and a total-results
count `T` was extracted, the number of targeted pages is the ceiling
of `T` over the first page's size (`⌈/⌉` is natural ceiling division),
reduced to `max_pages` when that is given, positive and smaller; when
additionally a next-page link was found, exactly one follow-up URL is
generated per targeted page after the first, the one for page `i`
rewriting the offset token to `page_size * i` for
`i = 1 .. total_pages - 1`; when no next-page link was found, no
follow-up URL is generated and only the first page's results are
returned. -/
theorem claim3_pagination (fp : TripAdvisorScraper.FirstPage) (mp : Option Nat)
    (T : Nat)
    (hres : fp.results ≠ []) (hT : fp.total_results_text = some T) :
    (mp = none →
      (TripAdvisorScraper.scrape_search_pages fp mp).1 = T ⌈/⌉ fp.results.length) ∧
    (∀ m, mp = some m → 0 < m → m < T ⌈/⌉ fp.results.length →
      (TripAdvisorScraper.scrape_search_pages fp mp).1 = m) ∧
    (∀ m, mp = some m → T ⌈/⌉ fp.results.length ≤ m →
      (TripAdvisorScraper.scrape_search_pages fp mp).1 = T ⌈/⌉ fp.results.length) ∧
    (∀ u, fp.next_page_url = some u →
      ((TripAdvisorScraper.scrape_search_pages fp mp).2.length =
        (TripAdvisorScraper.scrape_search_pages fp mp).1 - 1) ∧
      (∀ i (hi : i < (TripAdvisorScraper.scrape_search_pages fp mp).2.length),
        (TripAdvisorScraper.scrape_search_pages fp mp).2.get ⟨i, hi⟩ =
          PyStr.pyReplace ("oa".toList ++ PyStr.natDigits fp.results.length)
            ("oa".toList ++ PyStr.natDigits (fp.results.length * (i + 1))) u)) ∧
    (fp.next_page_url = none →
      (TripAdvisorScraper.scrape_search_pages fp mp).2 = []) := by
  have hps : 0 < fp.results.length := List.length_pos.mpr hres
  have hceil := TripAdvisorScraper.ceil_rat_div T fp.results.length hps
  have h1 : (TripAdvisorScraper.scrape_search_pages fp mp).1 =
      (match mp with
        | some m => if m ≠ 0 ∧ T ⌈/⌉ fp.results.length > m then m
            else T ⌈/⌉ fp.results.length
        | none => T ⌈/⌉ fp.results.length) := by
    cases hnp : fp.next_page_url with
    | none => simp only [TripAdvisorScraper.scrape_search_pages, hT, hnp, hceil]
    | some nurl => simp only [TripAdvisorScraper.scrape_search_pages, hT, hnp, hceil]
  refine ⟨?_, ?_, ?_, ?_, ?_⟩
  · rintro rfl
    rw [h1]
  · rintro m rfl hm0 hlt
    rw [h1]
    show (if m ≠ 0 ∧ T ⌈/⌉ fp.results.length > m then m
      else T ⌈/⌉ fp.results.length) = m
    rw [if_pos ⟨Nat.pos_iff_ne_zero.mp hm0, hlt⟩]
  · rintro m rfl hge
    rw [h1]
    show (if m ≠ 0 ∧ T ⌈/⌉ fp.results.length > m then m
      else T ⌈/⌉ fp.results.length) = T ⌈/⌉ fp.results.length
    rw [if_neg fun hc => (Nat.not_lt.mpr hge) hc.2]
  · intro u hu
    constructor
    · simp only [TripAdvisorScraper.scrape_search_pages, hT, hu]
      simp [List.length_map, List.length_range']
    · intro i hi
      have hlist : (TripAdvisorScraper.scrape_search_pages fp mp).2 =
          (List.range' 1 ((TripAdvisorScraper.scrape_search_pages fp mp).1 - 1)).map
            (fun j => PyStr.pyReplace ("oa".toList ++ PyStr.natDigits fp.results.length)
              ("oa".toList ++ PyStr.natDigits (fp.results.length * j)) u) := by
        simp only [TripAdvisorScraper.scrape_search_pages, hT, hu]
      rw [List.get_of_eq hlist]
      simp only [List.get_eq_getElem, List.getElem_map, List.getElem_range']
      have harith : 1 + 1 * i = i + 1 := by omega
      rw [harith]
  · intro hnp
    simp only [TripAdvisorScraper.scrape_search_pages, hT, hnp]

/-- C3 witness: the amended pagination theorem applied to a first page
with two results, an extracted total of 5 and a next-page link, with
no max-pages bound: the targeted page count is the ceiling of 5 over
2, and one follow-up URL is generated per targeted page after the
first. -/
theorem claim3_witness :
    (TripAdvisorScraper.scrape_search_pages
      ⟨[⟨"u1".toList, "A".toList⟩, ⟨"u2".toList, "B".toList⟩], some 5,
        some ("x-oa2-z".toList)⟩ none).1 = 5 ⌈/⌉ 2 ∧
    (TripAdvisorScraper.scrape_search_pages
      ⟨[⟨"u1".toList, "A".toList⟩, ⟨"u2".toList, "B".toList⟩], some 5,
        some ("x-oa2-z".toList)⟩ none).2.length = 5 ⌈/⌉ 2 - 1 := by
  have h := claim3_pagination
    (⟨[⟨"u1".toList, "A".toList⟩, ⟨"u2".toList, "B".toList⟩], some 5,
      some ("x-oa2-z".toList)⟩ : TripAdvisorScraper.FirstPage) none 5 (by decide) rfl
  refine ⟨h.1 rfl, ?_⟩
  rw [(h.2.2.2.1 ("x-oa2-z".toList) rfl).1, h.1 rfl]
  rfl
/-- C9: the post selection at the end of `search_travel_posts` (the
function defined at the cited lines of `reddit_travel_scraper.py`)
returns at most `limit` posts, with pairwise-distinct ids, sorted by
score in non-increasing order. -/
theorem claim9_post_selection (posts : List RedditTravelScraper.Post) (limit : Nat) :
    (RedditTravelScraper.search_travel_posts posts limit).length ≤ limit ∧
    ((RedditTravelScraper.search_travel_posts posts limit).map
      RedditTravelScraper.Post.id).Nodup ∧
    (RedditTravelScraper.search_travel_posts posts limit).Pairwise
      (fun a b => b.score ≤ a.score) := by
  unfold RedditTravelScraper.search_travel_posts
  refine ⟨List.length_take_le _ _, ?_, ?_⟩
  · have hperm := (List.mergeSort_perm (RedditTravelScraper.unique_posts posts)
      (fun a b => decide (b.score ≤ a.score))).map RedditTravelScraper.Post.id
    have hnodup := hperm.symm.nodup (RedditTravelScraper.unique_posts_ids_nodup posts)
    rw [List.map_take]
    exact List.Nodup.sublist (List.take_sublist _ _) hnodup
  · have htrans : ∀ (a b c : RedditTravelScraper.Post),
        decide (b.score ≤ a.score) = true → decide (c.score ≤ b.score) = true →
        decide (c.score ≤ a.score) = true := by
      intro a b c hab hbc
      exact decide_eq_true (le_trans (of_decide_eq_true hbc) (of_decide_eq_true hab))
    have htotal : ∀ (a b : RedditTravelScraper.Post),
        (decide (b.score ≤ a.score) || decide (a.score ≤ b.score)) = true := by
      intro a b
      rcases le_total b.score a.score with h | h
      · simp [h]
      · simp [h]
    have hsorted := List.sorted_mergeSort htrans htotal (RedditTravelScraper.unique_posts posts)
    have h2 := List.Pairwise.sublist (List.take_sublist limit _) hsorted
    exact h2.imp fun h => of_decide_eq_true h

/-- C10: the URL-deduplicated lists have pairwise-distinct URLs, are
sublists of their input (encounter order), keep for each retained
element the first input element with its URL, and represent every
admissible URL of the input; the first conjunct identifies the list
built by the query loop of `scrape_restaurants` (and the identical
`scrape_attractions`) with the deduplication of the concatenated
successful results, and the last block states the same properties for
the unique-posts pass of `filter_most_useful`, whose admissibility
check is vacuous. -/
theorem claim10_url_dedup :
    (∀ os, (UniversalCityScraper.scrape_restaurants [] [] os).1 =
      UniversalCityScraper.dedup_by_url (UniversalCityScraper.scraped_inputs os)) ∧
    (∀ l, ((UniversalCityScraper.dedup_by_url l).map
        (fun p => p.tripadvisor_url)).Nodup ∧
      (UniversalCityScraper.dedup_by_url l).Sublist l ∧
      (∀ y ∈ UniversalCityScraper.dedup_by_url l, ∃ p q, l = p ++ y :: q ∧
        ∀ z ∈ p, z.tripadvisor_url ≠ y.tripadvisor_url) ∧
      (∀ x ∈ l, x.tripadvisor_url ≠ [] →
        ∃ y ∈ UniversalCityScraper.dedup_by_url l,
          y.tripadvisor_url = x.tripadvisor_url)) ∧
    (∀ l, ((FilterMostUseful.unique_posts_pass l).map (fun p => p.url)).Nodup ∧
      (FilterMostUseful.unique_posts_pass l).Sublist l ∧
      (∀ y ∈ FilterMostUseful.unique_posts_pass l, ∃ p q, l = p ++ y :: q ∧
        ∀ z ∈ p, z.url ≠ y.url) ∧
      (∀ x ∈ l, ∃ y ∈ FilterMostUseful.unique_posts_pass l, y.url = x.url)) := by
  refine ⟨?_, ?_, ?_⟩
  · intro os
    rw [UniversalCityScraper.scrape_restaurants_fst]
    rfl
  · intro l
    refine ⟨Dedup.nodup_keys_dedup_first _ _ _ _, Dedup.dedup_first_sublist _ _ _ _,
      ?_, ?_⟩
    · intro y hy
      exact Dedup.first_occurrence_dedup_first _ _ _ _ y hy
    · intro x hx hok
      have h := Dedup.complete_dedup_first (fun p => p.tripadvisor_url)
        (fun u => u ≠ []) [] l x hx hok
      exact h.resolve_left (by simp)
  · intro l
    refine ⟨Dedup.nodup_keys_dedup_first _ _ _ _, Dedup.dedup_first_sublist _ _ _ _,
      ?_, ?_⟩
    · intro y hy
      exact Dedup.first_occurrence_dedup_first _ _ _ _ y hy
    · intro x hx
      have h := Dedup.complete_dedup_first (fun p => p.url)
        (fun _ => True) [] l x hx trivial
      exact h.resolve_left (by simp)

/-- C10 witness: the deduplication theorem applied to a two-element
list sharing one URL: the kept element is the first one, and the output
URLs are distinct. -/
theorem claim10_witness :
    (∃ p q, ([⟨"A".toList, "u".toList, 0⟩, ⟨"B".toList, "u".toList, 1⟩] :
        List UniversalCityScraper.Place) =
        p ++ (⟨"A".toList, "u".toList, 0⟩ : UniversalCityScraper.Place) :: q ∧
      ∀ z ∈ p, z.tripadvisor_url ≠
        (⟨"A".toList, "u".toList, 0⟩ : UniversalCityScraper.Place).tripadvisor_url) ∧
    ((UniversalCityScraper.dedup_by_url
        [⟨"A".toList, "u".toList, 0⟩, ⟨"B".toList, "u".toList, 1⟩]).map
      (fun p => p.tripadvisor_url)).Nodup := by
  constructor
  · exact (claim10_url_dedup.2.1
      [⟨"A".toList, "u".toList, 0⟩, ⟨"B".toList, "u".toList, 1⟩]).2.2.1
      (⟨"A".toList, "u".toList, 0⟩ : UniversalCityScraper.Place) (by decide)
  · exact (claim10_url_dedup.2.1 _).1
